import Mathlib

/-!
Verification of the Euro-IT-Accounts bookkeeping core: the in-memory Ledger
Store (AppData), the optimistic mutation coordinator in App.tsx, the
persistence layer in services/dataService.ts, and the financial aggregation
code in components (Reports, Dashboard, Clients).

Modelling conventions:
- Monetary amounts (TypeScript number) are modelled as rationals.
- ISO dates (strings YYYY-MM-DD) stay strings; the source compares them with
  JavaScript string comparison, modelled by the lexicographic order on String.
- Optional TypeScript fields become Option; the JavaScript expression
  x || d on an optional string (undefined, null and the empty string are all
  falsy) is modelled by jsStrOr, and n || 0 on an optional number by getD 0.
- Array.prototype.sort is modelled by List.insertionSort (any comparison sort
  produces a permutation ordered by the comparator; the claims below depend
  only on membership and sums, which are permutation invariant). Note that
  Array.prototype.sort mutates its receiver in place and returns it; where
  that matters (Reports clients memo) the model returns the mutated snapshot
  as well.
- Asynchronous adapter calls are modelled by their outcome: Option String is
  the error slot of a supabase response (some msg = error), Except String is
  a promise that either rejects or resolves.
-/

/-- Payment.type from types.ts: the transaction kind discriminator. -/
inductive PaymentType where
  | RECEIVED
  | REFUND
deriving DecidableEq, Repr

/-- Client record from types.ts. -/
structure Client where
  id : String
  name : String
  email : String
  phone : String
  company : Option String
  notes : Option String
  createdAt : Nat
  isActive : Option Bool
  totalBilled : Option ℚ
deriving DecidableEq, Repr

/-- Payment record from types.ts. -/
structure Payment where
  id : String
  clientId : String
  amount : ℚ
  date : String
  pDescription : Option String
  method : Option String
  details : Option String
  pType : Option PaymentType
deriving DecidableEq, Repr

/-- Expense record from types.ts. -/
structure Expense where
  id : String
  category : String
  amount : ℚ
  date : String
  eDescription : String
deriving DecidableEq, Repr

/-- AppData from types.ts: the Ledger Store. -/
structure AppData where
  clients : List Client
  payments : List Payment
  expenses : List Expense
deriving DecidableEq, Repr

/-- The JavaScript expression s || d for an optional string field: undefined
and the empty string are falsy, anything else is returned unchanged. -/
def jsStrOr (s : Option String) (d : String) : String :=
  match s with
  | none => d
  | some v => if v = "" then d else v

/-- Lexicographic comparison of character lists, used to model the JavaScript
relational operators on strings (code-unit comparison; identical to
code-point order on the BMP strings this program uses, such as ISO dates). -/
def charListLe : List Char → List Char → Bool
  | [], _ => true
  | _ :: _, [] => false
  | a :: as, b :: bs => if a = b then charListLe as bs else decide (a < b)

/-- JavaScript string less-or-equal, as used by the date-range filters and by
the localeCompare-based sorts in the source (for ASCII data localeCompare
agrees with code-unit order). -/
def strLe (a b : String) : Bool :=
  charListLe a.data b.data

instance instRelPaymentDate : DecidableRel (fun a b : Payment => strLe a.date b.date = true) :=
  fun _ _ => Bool.decEq _ _

instance instRelExpenseDate : DecidableRel (fun a b : Expense => strLe a.date b.date = true) :=
  fun _ _ => Bool.decEq _ _

instance instRelClientName : DecidableRel (fun a b : Client => strLe a.name b.name = true) :=
  fun _ _ => Bool.decEq _ _

namespace App

/-- addClient from App.tsx lines 69-80: snapshot prevData, append the client
optimistically, and on persistence failure (ok = false) restore prevData. -/
def addClient (ok : Bool) (data : AppData) (client : Client) : AppData :=
  let prevData := data
  let optimistic := { data with clients := data.clients ++ [client] }
  if ok then optimistic else prevData

/-- updateClient from App.tsx lines 82-95: replace the client whose id
matches, rolling back to the snapshot on failure. -/
def updateClient (ok : Bool) (data : AppData) (updatedClient : Client) : AppData :=
  let prevData := data
  let optimistic := { data with
    clients := data.clients.map (fun c => if c.id = updatedClient.id then updatedClient else c) }
  if ok then optimistic else prevData

/-- addPayment from App.tsx lines 97-107. -/
def addPayment (ok : Bool) (data : AppData) (payment : Payment) : AppData :=
  let prevData := data
  let optimistic := { data with payments := data.payments ++ [payment] }
  if ok then optimistic else prevData

/-- updatePayment from App.tsx lines 109-122. -/
def updatePayment (ok : Bool) (data : AppData) (payment : Payment) : AppData :=
  let prevData := data
  let optimistic := { data with
    payments := data.payments.map (fun p => if p.id = payment.id then payment else p) }
  if ok then optimistic else prevData

/-- deletePayment from App.tsx lines 124-134. -/
def deletePayment (ok : Bool) (data : AppData) (id : String) : AppData :=
  let prevData := data
  let optimistic := { data with payments := data.payments.filter (fun p => p.id ≠ id) }
  if ok then optimistic else prevData

/-- addExpense from App.tsx lines 136-146. -/
def addExpense (ok : Bool) (data : AppData) (expense : Expense) : AppData :=
  let prevData := data
  let optimistic := { data with expenses := data.expenses ++ [expense] }
  if ok then optimistic else prevData

/-- deleteExpense from App.tsx lines 148-158. -/
def deleteExpense (ok : Bool) (data : AppData) (id : String) : AppData :=
  let prevData := data
  let optimistic := { data with expenses := data.expenses.filter (fun e => e.id ≠ id) }
  if ok then optimistic else prevData

end App

namespace DataService

/-- The client normalization applied at every fetchData read
(dataService.ts lines 41-44 and 56 and 63): isActive becomes true unless it
is explicitly false. -/
def normalizeClient (c : Client) : Client :=
  { c with isActive := some (c.isActive ≠ some false) }

/-- Normalization of a whole fetched data set (applied to the clients list). -/
def normalizeData (d : AppData) : AppData :=
  { d with clients := d.clients.map normalizeClient }

/-- The outcomes of the three remote selects issued by fetchData
(dataService.ts lines 30-34): each supabase response either carries data or
an error. -/
structure RemoteFetch where
  clients : Except String (List Client)
  payments : Except String (List Payment)
  expenses : Except String (List Expense)

/-- fetchData from dataService.ts lines 25-65. With a configured remote
backend (remote = some r) the three fetched collections are combined and the
clients normalized; if any of the three carries an error it is thrown inside
the try block, caught by the catch block, and the function falls back to the
normalized local data (an alert is shown, nothing is re-thrown). With no
remote configuration the normalized local data is returned directly.
localData is the result of getLocalData: parsing the stored blob can itself
throw, which is the only way fetchData rejects. -/
def fetchData (remote : Option RemoteFetch) (localData : Except String AppData) :
    Except String AppData :=
  match remote with
  | some r =>
    match r.clients, r.payments, r.expenses with
    | .ok cs, .ok ps, .ok es =>
        .ok { clients := cs.map normalizeClient, payments := ps, expenses := es }
    | _, _, _ => normalizeData <$> localData
  | none => normalizeData <$> localData

/-- True exactly when an adapter result carries an error. -/
def isErr {α : Type} : Except String α → Bool
  | .error _ => true
  | .ok _ => false

/-- updateClient from dataService.ts lines 88-92, local branch: map-replace
by id over the stored clients. -/
def updateClientLocal (data : AppData) (client : Client) : AppData :=
  { data with clients := data.clients.map (fun c => if c.id = client.id then client else c) }

/-- updatePayment from dataService.ts lines 113-117, local branch. -/
def updatePaymentLocal (data : AppData) (payment : Payment) : AppData :=
  { data with payments := data.payments.map (fun p => if p.id = payment.id then payment else p) }

/-- The adapter calls importData and clearData can issue, for recording which
calls a run attempts. -/
inductive AdapterCall where
  | upsertClients
  | upsertPayments
  | upsertExpenses
  | deletePayments
  | deleteExpenses
  | deleteClients
deriving DecidableEq, Repr

/-- Modelled from the spec (section 4.1 upsertMany, bulk insert-or-replace):
the server-side effect of the external supabase upsert on one collection,
whose implementation is not part of src. Matching ids are replaced in place,
new ids are appended. -/
def upsertRows {α : Type} (getId : α → String) (old new : List α) : List α :=
  (old.map (fun o =>
    match new.find? (fun n => getId n = getId o) with
    | some n => n
    | none => o)) ++
  new.filter (fun n => !(old.any (fun o => getId o = getId n)))

/-- Expense step of the remote importData (dataService.ts lines 167-170):
attempted only when the payload list is nonempty, aborting on its error. -/
def importExpenseStep (calls : List AdapterCall) (s : AppData) (ueErr : Option String)
    (payload : AppData) : List AdapterCall × Except String AppData :=
  if payload.expenses.length ≠ 0 then
    match ueErr with
    | some msg => (calls ++ [AdapterCall.upsertExpenses], .error msg)
    | none =>
        (calls ++ [AdapterCall.upsertExpenses],
         .ok { s with expenses := upsertRows Expense.id s.expenses payload.expenses })
  else (calls, .ok s)

/-- Payment step of the remote importData (dataService.ts lines 163-166). -/
def importPaymentStep (calls : List AdapterCall) (s : AppData) (upErr ueErr : Option String)
    (payload : AppData) : List AdapterCall × Except String AppData :=
  if payload.payments.length ≠ 0 then
    match upErr with
    | some msg => (calls ++ [AdapterCall.upsertPayments], .error msg)
    | none =>
        importExpenseStep (calls ++ [AdapterCall.upsertPayments])
          { s with payments := upsertRows Payment.id s.payments payload.payments } ueErr payload
  else importExpenseStep calls s ueErr payload

/-- importData from dataService.ts lines 156-174, remote branch: clients,
then payments, then expenses are upserted; a collection with an empty payload
list is skipped entirely; the first error aborts the rest. The three Option
String arguments are the error slots the backend would return for each
upsert, were it called. Returns the calls attempted and the resulting server
state (or the first error). -/
def importDataRemote (server : AppData) (ucErr upErr ueErr : Option String)
    (payload : AppData) : List AdapterCall × Except String AppData :=
  if payload.clients.length ≠ 0 then
    match ucErr with
    | some msg => ([AdapterCall.upsertClients], .error msg)
    | none =>
        importPaymentStep [AdapterCall.upsertClients]
          { server with clients := upsertRows Client.id server.clients payload.clients }
          upErr ueErr payload
  else importPaymentStep [] server upErr ueErr payload

/-- importData from dataService.ts line 172, local branch: the stored blob is
replaced wholesale by the payload. -/
def importDataLocal (payload : AppData) : AppData :=
  payload

/-- clearData from dataService.ts lines 176-188, remote branch: the three
delete calls are all awaited unconditionally (supabase returns its error in
the response rather than throwing), payments then expenses then clients, and
a single combined error is raised afterwards when any of the three failed. -/
def clearDataRemote (e1 e2 e3 : Option String) : List AdapterCall × Except String Unit :=
  let calls1 := [AdapterCall.deletePayments]
  let calls2 := calls1 ++ [AdapterCall.deleteExpenses]
  let calls3 := calls2 ++ [AdapterCall.deleteClients]
  (calls3,
    if e1.isSome || e2.isSome || e3.isSome then
      .error "Failed to clear some cloud data. Check RLS."
    else .ok ())

end DataService

namespace App

/-- importData from App.tsx lines 160-167 on the remote backend, with every
attempted upsert succeeding: dataService.importData runs against the server,
then loadData refetches the post-import server state (all three fetches
succeeding). The resulting Ledger Store is the fetched, normalized server
state. -/
def importFlowRemote (server payload : AppData) (localData : Except String AppData) :
    Except String AppData :=
  match (DataService.importDataRemote server none none none payload).2 with
  | .error msg => .error msg
  | .ok server2 =>
      DataService.fetchData
        (some { clients := .ok server2.clients, payments := .ok server2.payments,
                expenses := .ok server2.expenses })
        localData

/-- importData from App.tsx lines 160-167 on the local backend:
dataService.importData replaces the stored blob with the payload and loadData
reads it back (normalized). -/
def importFlowLocal (payload : AppData) : Except String AppData :=
  DataService.fetchData none (.ok (DataService.importDataLocal payload))

end App

/-- The empty Ledger Store. -/
def emptyAppData : AppData :=
  { clients := [], payments := [], expenses := [] }

namespace Clients

/-- The record returned by getClientFinancials. -/
structure Financials where
  netPaid : ℚ
  due : ℚ
  billed : ℚ
deriving DecidableEq, Repr

/-- getClientFinancials from the Clients component (src/unnamed/part_000
lines 130-140): received minus refunded over the payments of the client, and
due against the billed ceiling. -/
def getClientFinancials (data : AppData) (clientId : String) : Financials :=
  let clientPayments := data.payments.filter (fun p => p.clientId = clientId)
  let received := (clientPayments.filter (fun p => p.pType ≠ some PaymentType.REFUND)).foldl
    (fun sum p => sum + p.amount) 0
  let refunded := (clientPayments.filter (fun p => p.pType = some PaymentType.REFUND)).foldl
    (fun sum p => sum + p.amount) 0
  let netPaid := received - refunded
  let client := data.clients.find? (fun c => c.id = clientId)
  let billed := match client with
    | some c => c.totalBilled.getD 0
    | none => 0
  let due := billed - netPaid
  { netPaid := netPaid, due := due, billed := billed }

end Clients

namespace Dashboard

/-- The per-client term of the totalDue reduce in the Dashboard stats memo
(src/unnamed/part_000 lines 613-621): signed paid sum, due against billed,
clamped to zero from below before being added. -/
def clientDueTerm (data : AppData) (client : Client) : ℚ :=
  let clientPayments := data.payments.filter (fun p => p.clientId = client.id)
  let paid := clientPayments.foldl
    (fun acc p => if p.pType = some PaymentType.REFUND then acc - p.amount else acc + p.amount) 0
  let billed := client.totalBilled.getD 0
  let due := billed - paid
  if due > 0 then due else 0

/-- totalDue from the Dashboard stats memo (src/unnamed/part_000 lines
613-621). -/
def totalDue (data : AppData) : ℚ :=
  data.clients.foldl (fun sum client => sum + clientDueTerm data client) 0

end Dashboard

namespace Reports

/-- The payment predicate of the reportData memo (Reports.tsx lines 60-64):
dateMatch, clientMatch and methodMatch combined. -/
def paymentMatch (startDate endDate selectedClientId methodFilter : String)
    (p : Payment) : Bool :=
  (strLe startDate p.date && strLe p.date endDate) &&
  (selectedClientId = "ALL" ∨ p.clientId = selectedClientId : Bool) &&
  (methodFilter = "ALL" ∨ jsStrOr p.method "Cash" = methodFilter : Bool)

/-- The filtered, date-sorted payments of the report (Reports.tsx lines
60-65). -/
def filteredPayments (data : AppData) (startDate endDate selectedClientId methodFilter : String) :
    List Payment :=
  List.insertionSort (fun a b => strLe a.date b.date = true)
    (data.payments.filter (paymentMatch startDate endDate selectedClientId methodFilter))

/-- The filtered, date-sorted expenses of the report (Reports.tsx lines
67-71): present only when both the client filter and the method filter are
ALL. -/
def filteredExpenses (data : AppData) (startDate endDate selectedClientId methodFilter : String) :
    List Expense :=
  if selectedClientId = "ALL" ∧ methodFilter = "ALL" then
    List.insertionSort (fun a b => strLe a.date b.date = true)
      (data.expenses.filter (fun e => strLe startDate e.date && strLe e.date endDate))
  else []

/-- The fields of the reportData memo the claims are about (Reports.tsx lines
58-125; clientContext and methodBreakdown, presentation context not touched
by any claim, are omitted). -/
structure ReportData where
  payments : List Payment
  expenses : List Expense
  totalReceived : ℚ
  totalRefunded : ℚ
  netIncome : ℚ
  totalExpenses : ℚ
  netProfit : ℚ
deriving Repr

/-- reportData from Reports.tsx lines 58-125. -/
def reportData (data : AppData) (startDate endDate selectedClientId methodFilter : String) :
    ReportData :=
  let fp := filteredPayments data startDate endDate selectedClientId methodFilter
  let fe := filteredExpenses data startDate endDate selectedClientId methodFilter
  let totalReceived := (fp.filter (fun p => p.pType ≠ some PaymentType.REFUND)).foldl
    (fun sum p => sum + p.amount) 0
  let totalRefunded := (fp.filter (fun p => p.pType = some PaymentType.REFUND)).foldl
    (fun sum p => sum + p.amount) 0
  let netIncome := totalReceived - totalRefunded
  let totalExpenses := fe.foldl (fun sum e => sum + e.amount) 0
  let netProfit := netIncome - totalExpenses
  { payments := fp, expenses := fe, totalReceived := totalReceived,
    totalRefunded := totalRefunded, netIncome := netIncome,
    totalExpenses := totalExpenses, netProfit := netProfit }

/-- The debit cell of the totals row, identical in the CSV export
(Reports.tsx lines 173-176) and in the table tfoot (lines 517-519): refunds
plus expenses, the latter only when the method filter is ALL. -/
def totalsRowDebit (data : AppData) (startDate endDate selectedClientId methodFilter : String) :
    ℚ :=
  (reportData data startDate endDate selectedClientId methodFilter).totalRefunded +
    (if methodFilter = "ALL" then
      (reportData data startDate endDate selectedClientId methodFilter).totalExpenses
     else 0)

/-- The credit cell of the totals row (same source lines): total received. -/
def totalsRowCredit (data : AppData) (startDate endDate selectedClientId methodFilter : String) :
    ℚ :=
  (reportData data startDate endDate selectedClientId methodFilter).totalReceived

/-- The clients memo from Reports.tsx lines 47-49. Array.prototype.sort sorts
its receiver in place and returns the same array, so this memo both yields
the name-sorted list and leaves data.clients sorted: the model returns the
memo value together with the snapshot as it stands after the call. -/
def clientsMemo (data : AppData) : List Client × AppData :=
  let sorted := List.insertionSort (fun a b => strLe a.name b.name = true) data.clients
  (sorted, { data with clients := sorted })

end Reports

namespace LedgerSpec

/-- Specification-side reading of claim C2: the RECEIVED sum over the
payments of one client, a missing kind counting as RECEIVED. -/
def clientReceived (data : AppData) (cid : String) : ℚ :=
  ((data.payments.filter (fun p =>
      p.clientId = cid ∧ (p.pType = some PaymentType.RECEIVED ∨ p.pType = none))).map
    Payment.amount).sum

/-- Specification-side reading of claim C2: the REFUND sum over the payments
of one client. -/
def clientRefunded (data : AppData) (cid : String) : ℚ :=
  ((data.payments.filter (fun p =>
      p.clientId = cid ∧ p.pType = some PaymentType.REFUND)).map Payment.amount).sum

/-- Specification-side reading of claim C2: billed ceiling of the client the
financials are computed for. -/
def clientBilled (data : AppData) (cid : String) : ℚ :=
  match data.clients.find? (fun c => c.id = cid) with
  | some c => c.totalBilled.getD 0
  | none => 0

/-- Specification-side reading of claim C2: the aggregate outstanding total,
summing only the positive per-client dues (each due computed from the client
record itself). -/
def totalOutstanding (data : AppData) : ℚ :=
  (data.clients.map (fun c =>
    max (c.totalBilled.getD 0 - (clientReceived data c.id - clientRefunded data c.id)) 0)).sum

/-- Specification-side reading of the report membership condition for
payments, as amended for claim C3: date within the inclusive range, client
filter ALL or matching, method filter ALL or matching with a missing or
empty method defaulting to Cash. -/
def paymentInReport (s e cid m : String) (p : Payment) : Prop :=
  strLe s p.date = true ∧ strLe p.date e = true ∧
  (cid = "ALL" ∨ p.clientId = cid) ∧
  (m = "ALL" ∨ jsStrOr p.method "Cash" = m)

/-- The report membership condition exactly as claim C3 words it: only a
missing method defaults to Cash (an empty-string method stays empty). -/
def paymentInReportClaim (s e cid m : String) (p : Payment) : Prop :=
  strLe s p.date = true ∧ strLe p.date e = true ∧
  (cid = "ALL" ∨ p.clientId = cid) ∧
  (m = "ALL" ∨ p.method.getD "Cash" = m)

instance instDecPaymentInReport (s e cid m : String) (p : Payment) :
    Decidable (paymentInReport s e cid m p) := by
  unfold paymentInReport
  infer_instance

/-- Specification-side reading of claim C6: total refunds of the report. -/
def reportRefundTotal (data : AppData) (s e cid m : String) : ℚ :=
  ((data.payments.filter (fun p =>
      paymentInReport s e cid m p ∧ p.pType = some PaymentType.REFUND)).map
    Payment.amount).sum

/-- Specification-side reading of claim C6: total received of the report. -/
def reportReceivedTotal (data : AppData) (s e cid m : String) : ℚ :=
  ((data.payments.filter (fun p =>
      paymentInReport s e cid m p ∧ p.pType ≠ some PaymentType.REFUND)).map
    Payment.amount).sum

/-- Specification-side reading of claim C6: total expenses of the report
(zero unless both filters are ALL). -/
def reportExpenseTotal (data : AppData) (s e cid m : String) : ℚ :=
  if cid = "ALL" ∧ m = "ALL" then
    ((data.expenses.filter (fun x => strLe s x.date = true ∧ strLe x.date e = true)).map
      Expense.amount).sum
  else 0

end LedgerSpec

instance instDecPaymentInReportClaim (s e cid m : String) (p : Payment) :
    Decidable (LedgerSpec.paymentInReportClaim s e cid m p) := by
  unfold LedgerSpec.paymentInReportClaim
  infer_instance

/-- Example client of the claim C2 example: totalBilled 1000. -/
def exClient : Client :=
  { id := "C", name := "Client C", email := "c@euroit.example", phone := "",
    company := none, notes := none, createdAt := 0, isActive := some true,
    totalBilled := some 1000 }

/-- Example RECEIVED payment of 400 for exClient. -/
def exPayment1 : Payment :=
  { id := "p1", clientId := "C", amount := 400, date := "2024-01-10",
    pDescription := none, method := some "Cash", details := none,
    pType := some PaymentType.RECEIVED }

/-- Example REFUND payment of 100 for exClient. -/
def exPayment2 : Payment :=
  { id := "p2", clientId := "C", amount := 100, date := "2024-02-20",
    pDescription := none, method := some "Cash", details := none,
    pType := some PaymentType.REFUND }

/-- Ledger of the claim C2 example. -/
def exData : AppData :=
  { clients := [exClient], payments := [exPayment1, exPayment2], expenses := [] }

/-- A payment whose method is present but empty: the JavaScript || operator
treats the empty string as falsy, so the report filter compares it as Cash. -/
def exEmptyMethodPayment : Payment :=
  { id := "pm", clientId := "C", amount := 50, date := "2024-06-15",
    pDescription := none, method := some "", details := none,
    pType := some PaymentType.RECEIVED }

/-- Ledger holding only exEmptyMethodPayment. -/
def exMethodData : AppData :=
  { clients := [], payments := [exEmptyMethodPayment], expenses := [] }

/-- Remote fetch outcome whose clients select fails. -/
def exFailedFetch : DataService.RemoteFetch :=
  { clients := .error "RLS policy denied", payments := .ok [], expenses := .ok [] }

/-- Nonempty local data available as the fetch fallback. -/
def exLocalData : AppData :=
  { clients := [], payments := [exPayment1], expenses := [] }

/-- Nonempty remote server state run against the empty import payload. -/
def exServerData : AppData :=
  { clients := [], payments := [exPayment2], expenses := [] }

/-- A client whose id occurs nowhere in exData. -/
def exClientZ : Client :=
  { id := "Z", name := "Nobody", email := "z@euroit.example", phone := "",
    company := none, notes := none, createdAt := 0, isActive := some true,
    totalBilled := some 0 }

/-- A payment whose id occurs nowhere in exData. -/
def exPaymentZ : Payment :=
  { id := "pz", clientId := "C", amount := 5, date := "2024-03-01",
    pDescription := none, method := some "Cash", details := none,
    pType := some PaymentType.RECEIVED }

/-- Import payload with nonempty clients and payments, to observe the abort
after a failing clients upsert. -/
def exImportPayload : AppData :=
  { clients := [exClientZ], payments := [exPaymentZ], expenses := [] }

/-- First of two clients listed in reverse name order. -/
def cAlpha : Client :=
  { id := "a", name := "A", email := "a@euroit.example", phone := "",
    company := none, notes := none, createdAt := 0, isActive := some true,
    totalBilled := some 0 }

/-- Second of two clients listed in reverse name order. -/
def cBeta : Client :=
  { id := "b", name := "B", email := "b@euroit.example", phone := "",
    company := none, notes := none, createdAt := 0, isActive := some true,
    totalBilled := some 0 }

/-- Ledger whose clients are not sorted by name. -/
def exUnsortedData : AppData :=
  { clients := [cBeta, cAlpha], payments := [], expenses := [] }

/-- C1: every optimistic mutation whose persistence call fails (ok = false)
rolls the Ledger Store back to exactly the pre-mutation state, for all seven
mutations of App.tsx. -/
theorem c1_rollback_full_restore (data : AppData) (c : Client) (p : Payment)
    (e : Expense) (pid eid : String) :
    App.addClient false data c = data ∧
    App.updateClient false data c = data ∧
    App.addPayment false data p = data ∧
    App.updatePayment false data p = data ∧
    App.deletePayment false data pid = data ∧
    App.addExpense false data e = data ∧
    App.deleteExpense false data eid = data :=
  ⟨rfl, rfl, rfl, rfl, rfl, rfl, rfl⟩

/-- C7: the adapter-boundary client normalization is idempotent: applying it
twice yields the same record as applying it once. -/
theorem c7_normalize_idempotent (c : Client) :
    DataService.normalizeClient (DataService.normalizeClient c) =
      DataService.normalizeClient c := by
  cases h : c.isActive with
  | none => simp [DataService.normalizeClient]
  | some b => cases b <;> simp [DataService.normalizeClient]

/-- Folding addition of a projected value equals the starting value plus the
sum of the mapped list. -/
theorem foldl_add_eq_sum {α : Type} (f : α → ℚ) (l : List α) :
    ∀ a : ℚ, l.foldl (fun s x => s + f x) a = a + (l.map f).sum := by
  induction l with
  | nil => intro a; simp
  | cons x t ih =>
      intro a
      rw [List.foldl_cons, ih, List.map_cons, List.sum_cons]
      ring

/-- Folding a subtract-on-condition reducer equals the starting value plus
the signed sum. -/
theorem foldl_signed_eq_sum {α : Type} (c : α → Prop) [DecidablePred c] (g : α → ℚ)
    (l : List α) :
    ∀ a : ℚ, l.foldl (fun acc x => if c x then acc - g x else acc + g x) a =
      a + (l.map (fun x => if c x then -g x else g x)).sum := by
  induction l with
  | nil => intro a; simp
  | cons x t ih =>
      intro a
      rw [List.foldl_cons, ih, List.map_cons, List.sum_cons]
      by_cases h : c x <;> simp [h] <;> ring

/-- A signed sum splits into the sum over the negative-condition part minus
the sum over the positive-condition part. -/
theorem signed_sum_split {α : Type} (c : α → Prop) [DecidablePred c] (g : α → ℚ)
    (l : List α) :
    (l.map (fun x => if c x then -g x else g x)).sum =
      ((l.filter (fun x => ¬ c x)).map g).sum - ((l.filter (fun x => c x)).map g).sum := by
  induction l with
  | nil => simp
  | cons x t ih =>
      by_cases h : c x <;>
        simp [h, List.filter_cons, ih] <;> ring

/-- Clamping from below at zero via an if equals max with zero. -/
theorem if_pos_part (q : ℚ) : (if q > 0 then q else 0) = max q 0 := by
  rcases le_or_lt q 0 with h | h
  · rw [if_neg (not_lt.mpr h), max_eq_right h]
  · rw [if_pos h, max_eq_left h.le]

/-- Mapping a function that fixes every member is the identity. -/
theorem map_eq_self_of_mem {α : Type} (f : α → α) (l : List α) (h : ∀ x ∈ l, f x = x) :
    l.map f = l := by
  induction l with
  | nil => rfl
  | cons a t ih =>
      rw [List.map_cons, h a (List.mem_cons_self a t),
        ih (fun x hx => h x (List.mem_cons_of_mem a hx))]

/-- Filtering a client-id match then not-REFUND equals one filter over the
claim-side RECEIVED condition (missing kind counted as RECEIVED). -/
theorem filter_client_notRefund (cid : String) (l : List Payment) :
    (l.filter (fun p => p.clientId = cid)).filter
        (fun p => p.pType ≠ some PaymentType.REFUND) =
      l.filter (fun p =>
        p.clientId = cid ∧ (p.pType = some PaymentType.RECEIVED ∨ p.pType = none)) := by
  rw [List.filter_filter]
  apply List.filter_congr
  intro x _
  by_cases hc : x.clientId = cid
  · cases hx : x.pType with
    | none => simp [hc, hx]
    | some pt => cases pt <;> simp [hc, hx]
  · simp [hc]

/-- Filtering a client-id match then REFUND equals one filter over the
conjunction. -/
theorem filter_client_refund (cid : String) (l : List Payment) :
    (l.filter (fun p => p.clientId = cid)).filter
        (fun p => p.pType = some PaymentType.REFUND) =
      l.filter (fun p => p.clientId = cid ∧ p.pType = some PaymentType.REFUND) := by
  rw [List.filter_filter]
  apply List.filter_congr
  intro x _
  by_cases hc : x.clientId = cid
  · by_cases hx : x.pType = some PaymentType.REFUND
    · simp [hc, hx]
    · simp [hc, hx]
  · simp [hc]

/-- The netPaid field of getClientFinancials equals the specification sums. -/
theorem getClientFinancials_netPaid (data : AppData) (cid : String) :
    (Clients.getClientFinancials data cid).netPaid =
      LedgerSpec.clientReceived data cid - LedgerSpec.clientRefunded data cid := by
  have hr := foldl_add_eq_sum (fun p : Payment => p.amount)
    ((data.payments.filter (fun p => p.clientId = cid)).filter
      (fun p => p.pType ≠ some PaymentType.REFUND)) 0
  have hf := foldl_add_eq_sum (fun p : Payment => p.amount)
    ((data.payments.filter (fun p => p.clientId = cid)).filter
      (fun p => p.pType = some PaymentType.REFUND)) 0
  show ((data.payments.filter (fun p => p.clientId = cid)).filter
      (fun p => p.pType ≠ some PaymentType.REFUND)).foldl (fun sum p => sum + p.amount) 0 -
    ((data.payments.filter (fun p => p.clientId = cid)).filter
      (fun p => p.pType = some PaymentType.REFUND)).foldl (fun sum p => sum + p.amount) 0 =
    LedgerSpec.clientReceived data cid - LedgerSpec.clientRefunded data cid
  rw [hr, hf, zero_add, zero_add, filter_client_notRefund cid data.payments,
    filter_client_refund cid data.payments]
  rfl

/-- The due field of getClientFinancials is billed minus netPaid. -/
theorem getClientFinancials_due (data : AppData) (cid : String) :
    (Clients.getClientFinancials data cid).due =
      LedgerSpec.clientBilled data cid - (Clients.getClientFinancials data cid).netPaid :=
  rfl

/-- The per-client term of the Dashboard totalDue reduce equals the positive
part of the specification due. -/
theorem clientDueTerm_eq (data : AppData) (client : Client) :
    Dashboard.clientDueTerm data client =
      max (client.totalBilled.getD 0 -
        (LedgerSpec.clientReceived data client.id - LedgerSpec.clientRefunded data client.id))
        0 := by
  have hs := foldl_signed_eq_sum (fun p : Payment => p.pType = some PaymentType.REFUND)
    (fun p : Payment => p.amount)
    (data.payments.filter (fun p => p.clientId = client.id)) 0
  show (if client.totalBilled.getD 0 -
      (data.payments.filter (fun p => p.clientId = client.id)).foldl
        (fun acc p => if p.pType = some PaymentType.REFUND then acc - p.amount
          else acc + p.amount) 0 > 0 then
    client.totalBilled.getD 0 -
      (data.payments.filter (fun p => p.clientId = client.id)).foldl
        (fun acc p => if p.pType = some PaymentType.REFUND then acc - p.amount
          else acc + p.amount) 0
    else 0) = _
  rw [hs, zero_add,
    signed_sum_split (fun p : Payment => p.pType = some PaymentType.REFUND)
      (fun p : Payment => p.amount),
    filter_client_notRefund client.id data.payments,
    filter_client_refund client.id data.payments,
    if_pos_part]
  rfl

/-- The Dashboard totalDue reduce equals the specification aggregate
outstanding total. -/
theorem totalDue_eq_totalOutstanding (data : AppData) :
    Dashboard.totalDue data = LedgerSpec.totalOutstanding data := by
  have h := foldl_add_eq_sum (fun client => Dashboard.clientDueTerm data client)
    data.clients 0
  show data.clients.foldl (fun sum client => sum + Dashboard.clientDueTerm data client) 0 = _
  rw [h, zero_add, LedgerSpec.totalOutstanding]
  exact congrArg List.sum (List.map_congr_left (fun c _ => clientDueTerm_eq data c))

/-- C2: per client, netPaid is the RECEIVED sum minus the REFUND sum (missing
kind counted as RECEIVED) and due is billed minus netPaid; the Dashboard
total outstanding sums only the positive per-client dues; and on the example
ledger (billed 1000, one RECEIVED 400, one REFUND 100) netPaid is 300 and
due is 700. -/
theorem c2_client_financials :
    (∀ (data : AppData) (cid : String),
        (Clients.getClientFinancials data cid).netPaid =
          LedgerSpec.clientReceived data cid - LedgerSpec.clientRefunded data cid ∧
        (Clients.getClientFinancials data cid).due =
          LedgerSpec.clientBilled data cid - (Clients.getClientFinancials data cid).netPaid) ∧
    (∀ data : AppData, Dashboard.totalDue data = LedgerSpec.totalOutstanding data) ∧
    (Clients.getClientFinancials exData "C").netPaid = 300 ∧
    (Clients.getClientFinancials exData "C").due = 700 := by
  refine ⟨fun data cid => ⟨getClientFinancials_netPaid data cid, getClientFinancials_due data cid⟩,
    totalDue_eq_totalOutstanding, ?_, ?_⟩
  · have h : (Clients.getClientFinancials exData "C").netPaid =
        ((0 : ℚ) + 400) - ((0 : ℚ) + 100) := rfl
    rw [h]; norm_num
  · have h : (Clients.getClientFinancials exData "C").due =
        (1000 : ℚ) - (((0 : ℚ) + 400) - ((0 : ℚ) + 100)) := rfl
    rw [h]; norm_num

/-- The Bool report filter of the source holds exactly when the amended
specification membership condition holds. -/
theorem paymentMatch_iff (s e cid m : String) (p : Payment) :
    Reports.paymentMatch s e cid m p = true ↔ LedgerSpec.paymentInReport s e cid m p := by
  simp [Reports.paymentMatch, LedgerSpec.paymentInReport, Bool.and_eq_true,
    decide_eq_true_eq, and_assoc]

/-- C3 amended: a payment is in the report exactly when its date is in the
inclusive range, the client filter is ALL or matches, and the method filter
is ALL or matches with a missing or empty method defaulting to Cash; an
expense is in the report exactly when both filters are ALL and its date is in
range. -/
theorem c3_report_membership (data : AppData) (s e cid m : String) :
    (∀ p : Payment, p ∈ (Reports.reportData data s e cid m).payments ↔
       p ∈ data.payments ∧ LedgerSpec.paymentInReport s e cid m p) ∧
    (∀ x : Expense, x ∈ (Reports.reportData data s e cid m).expenses ↔
       cid = "ALL" ∧ m = "ALL" ∧ x ∈ data.expenses ∧
         strLe s x.date = true ∧ strLe x.date e = true) := by
  constructor
  · intro p
    show p ∈ Reports.filteredPayments data s e cid m ↔ _
    rw [Reports.filteredPayments, List.mem_insertionSort, List.mem_filter, paymentMatch_iff]
  · intro x
    show x ∈ Reports.filteredExpenses data s e cid m ↔ _
    rw [Reports.filteredExpenses]
    by_cases h : cid = "ALL" ∧ m = "ALL"
    · rw [if_pos h, List.mem_insertionSort, List.mem_filter]
      simp [h.1, h.2, Bool.and_eq_true, and_assoc]
    · rw [if_neg h]
      simp only [List.not_mem_nil, false_iff]
      intro hcontra
      exact h ⟨hcontra.1, hcontra.2.1⟩

/-- C3 counterexample: a payment whose method is the empty string is included
by the source filter under methodFilter Cash (JavaScript || also defaults the
empty string), while the claim wording, which defaults only a missing method,
excludes it. -/
theorem c3_counterexample :
    exEmptyMethodPayment ∈
      (Reports.reportData exMethodData "2024-01-01" "2024-12-31" "ALL" "Cash").payments ∧
    ¬ LedgerSpec.paymentInReportClaim "2024-01-01" "2024-12-31" "ALL" "Cash"
        exEmptyMethodPayment := by
  constructor
  · decide
  · decide

/-- Filtering the report match then REFUND equals one filter over the
conjunction with the specification membership condition. -/
theorem filter_match_refund (s e cid m : String) (l : List Payment) :
    (l.filter (Reports.paymentMatch s e cid m)).filter
        (fun p => p.pType = some PaymentType.REFUND) =
      l.filter (fun p =>
        LedgerSpec.paymentInReport s e cid m p ∧ p.pType = some PaymentType.REFUND) := by
  rw [List.filter_filter]
  apply List.filter_congr
  intro x _
  by_cases hq : LedgerSpec.paymentInReport s e cid m x
  · have hb : Reports.paymentMatch s e cid m x = true := (paymentMatch_iff s e cid m x).mpr hq
    by_cases hr : x.pType = some PaymentType.REFUND <;> simp [hb, hq, hr]
  · have hb : Reports.paymentMatch s e cid m x = false :=
      Bool.eq_false_iff.mpr (fun hcontra => hq ((paymentMatch_iff s e cid m x).mp hcontra))
    simp [hb, hq]

/-- Filtering the report match then not-REFUND equals one filter over the
conjunction with the specification membership condition. -/
theorem filter_match_notRefund (s e cid m : String) (l : List Payment) :
    (l.filter (Reports.paymentMatch s e cid m)).filter
        (fun p => p.pType ≠ some PaymentType.REFUND) =
      l.filter (fun p =>
        LedgerSpec.paymentInReport s e cid m p ∧ p.pType ≠ some PaymentType.REFUND) := by
  rw [List.filter_filter]
  apply List.filter_congr
  intro x _
  by_cases hq : LedgerSpec.paymentInReport s e cid m x
  · have hb : Reports.paymentMatch s e cid m x = true := (paymentMatch_iff s e cid m x).mpr hq
    by_cases hr : x.pType = some PaymentType.REFUND <;> simp [hb, hq, hr]
  · have hb : Reports.paymentMatch s e cid m x = false :=
      Bool.eq_false_iff.mpr (fun hcontra => hq ((paymentMatch_iff s e cid m x).mp hcontra))
    simp [hb, hq]

/-- The Bool expense range filter equals the decidable conjunction form. -/
theorem filter_expense_range (s e : String) (l : List Expense) :
    l.filter (fun x => strLe s x.date && strLe x.date e) =
      l.filter (fun x => strLe s x.date = true ∧ strLe x.date e = true) := by
  apply List.filter_congr
  intro x _
  cases h1 : strLe s x.date <;> cases h2 : strLe x.date e <;> simp [h1, h2]

/-- The totalRefunded field of reportData equals the specification refund
total of the report. -/
theorem reportData_totalRefunded (data : AppData) (s e cid m : String) :
    (Reports.reportData data s e cid m).totalRefunded =
      LedgerSpec.reportRefundTotal data s e cid m := by
  have h1 := foldl_add_eq_sum (fun p : Payment => p.amount)
    ((Reports.filteredPayments data s e cid m).filter
      (fun p => p.pType = some PaymentType.REFUND)) 0
  have h2 : (((Reports.filteredPayments data s e cid m).filter
        (fun p => p.pType = some PaymentType.REFUND)).map (fun p : Payment => p.amount)).sum =
      (((data.payments.filter (Reports.paymentMatch s e cid m)).filter
        (fun p => p.pType = some PaymentType.REFUND)).map (fun p : Payment => p.amount)).sum :=
    List.Perm.sum_eq (List.Perm.map _ (List.Perm.filter _
      (List.perm_insertionSort _ (data.payments.filter (Reports.paymentMatch s e cid m)))))
  show ((Reports.filteredPayments data s e cid m).filter
      (fun p => p.pType = some PaymentType.REFUND)).foldl (fun sum p => sum + p.amount) 0 = _
  rw [h1, zero_add, h2, filter_match_refund s e cid m data.payments]
  rfl

/-- The totalReceived field of reportData equals the specification received
total of the report. -/
theorem reportData_totalReceived (data : AppData) (s e cid m : String) :
    (Reports.reportData data s e cid m).totalReceived =
      LedgerSpec.reportReceivedTotal data s e cid m := by
  have h1 := foldl_add_eq_sum (fun p : Payment => p.amount)
    ((Reports.filteredPayments data s e cid m).filter
      (fun p => p.pType ≠ some PaymentType.REFUND)) 0
  have h2 : (((Reports.filteredPayments data s e cid m).filter
        (fun p => p.pType ≠ some PaymentType.REFUND)).map (fun p : Payment => p.amount)).sum =
      (((data.payments.filter (Reports.paymentMatch s e cid m)).filter
        (fun p => p.pType ≠ some PaymentType.REFUND)).map (fun p : Payment => p.amount)).sum :=
    List.Perm.sum_eq (List.Perm.map _ (List.Perm.filter _
      (List.perm_insertionSort _ (data.payments.filter (Reports.paymentMatch s e cid m)))))
  show ((Reports.filteredPayments data s e cid m).filter
      (fun p => p.pType ≠ some PaymentType.REFUND)).foldl (fun sum p => sum + p.amount) 0 = _
  rw [h1, zero_add, h2, filter_match_notRefund s e cid m data.payments]
  rfl

/-- The totalExpenses field of reportData equals the specification expense
total of the report. -/
theorem reportData_totalExpenses (data : AppData) (s e cid m : String) :
    (Reports.reportData data s e cid m).totalExpenses =
      LedgerSpec.reportExpenseTotal data s e cid m := by
  show (Reports.filteredExpenses data s e cid m).foldl (fun sum x => sum + x.amount) 0 = _
  rw [Reports.filteredExpenses, LedgerSpec.reportExpenseTotal]
  by_cases h : cid = "ALL" ∧ m = "ALL"
  · rw [if_pos h, if_pos h]
    have h1 := foldl_add_eq_sum (fun x : Expense => x.amount)
      (List.insertionSort (fun a b => strLe a.date b.date = true)
        (data.expenses.filter (fun x => strLe s x.date && strLe x.date e))) 0
    have h2 : ((List.insertionSort (fun a b => strLe a.date b.date = true)
          (data.expenses.filter (fun x => strLe s x.date && strLe x.date e))).map
            (fun x : Expense => x.amount)).sum =
        ((data.expenses.filter (fun x => strLe s x.date && strLe x.date e)).map
            (fun x : Expense => x.amount)).sum :=
      List.Perm.sum_eq (List.Perm.map _ (List.perm_insertionSort _ _))
    rw [h1, zero_add, h2, filter_expense_range s e data.expenses]
  · rw [if_neg h, if_neg h]
    rfl

/-- C6: the totals row debit cell is the refund total plus, exactly when the
method filter is ALL, the expense total of the report; the credit cell is the
received total. -/
theorem c6_totals_row (data : AppData) (s e cid m : String) :
    Reports.totalsRowDebit data s e cid m =
      LedgerSpec.reportRefundTotal data s e cid m +
        (if m = "ALL" then LedgerSpec.reportExpenseTotal data s e cid m else 0) ∧
    Reports.totalsRowCredit data s e cid m =
      LedgerSpec.reportReceivedTotal data s e cid m := by
  constructor
  · rw [Reports.totalsRowDebit, reportData_totalRefunded, reportData_totalExpenses]
  · rw [Reports.totalsRowCredit, reportData_totalReceived]

/-- C4 counterexample: with the clients select failing and readable local
data, fetchData resolves with a ledger (the normalized local fallback)
instead of rejecting into the top-level cannot-load-data state. -/
theorem c4_counterexample :
    DataService.fetchData (some exFailedFetch) (.ok exLocalData) = .ok exLocalData ∧
    DataService.isErr (DataService.fetchData (some exFailedFetch) (.ok exLocalData)) = false := by
  constructor
  · rfl
  · rfl

/-- C4 amended: when any of the three remote fetches fails, fetchData falls
back to the normalized local data; it rejects (and the app shows the
top-level error state) exactly when reading the local data itself fails. -/
theorem c4_remote_failure_falls_back (r : DataService.RemoteFetch)
    (localData : Except String AppData)
    (h : DataService.isErr r.clients = true ∨ DataService.isErr r.payments = true ∨
      DataService.isErr r.expenses = true) :
    DataService.fetchData (some r) localData = DataService.normalizeData <$> localData ∧
    DataService.isErr (DataService.fetchData (some r) localData) =
      DataService.isErr localData := by
  obtain ⟨rc, rp, re⟩ := r
  have hfall : DataService.fetchData (some ⟨rc, rp, re⟩) localData =
      DataService.normalizeData <$> localData := by
    cases rc with
    | error msg => rfl
    | ok cs =>
        cases rp with
        | error msg => rfl
        | ok ps =>
            cases re with
            | error msg => rfl
            | ok es => simp [DataService.isErr] at h
  refine ⟨hfall, ?_⟩
  rw [hfall]
  cases localData with
  | error msg => rfl
  | ok d => rfl

/-- Witness for the amended C4 theorem at the concrete failing fetch. -/
theorem c4_witness :
    DataService.fetchData (some exFailedFetch) (.ok exLocalData) =
      DataService.normalizeData <$> (Except.ok (ε := String) exLocalData) ∧
    DataService.isErr (DataService.fetchData (some exFailedFetch) (.ok exLocalData)) =
      DataService.isErr (Except.ok (ε := String) exLocalData) :=
  c4_remote_failure_falls_back exFailedFetch (.ok exLocalData) (Or.inl rfl)

/-- C5 counterexample: importing the empty payload on the remote backend
succeeds, but the Ledger Store afterwards equals the pre-existing server
state, which is not empty. -/
theorem c5_counterexample :
    App.importFlowRemote exServerData emptyAppData (.ok emptyAppData) = .ok exServerData ∧
    exServerData ≠ emptyAppData := by
  constructor
  · rfl
  · decide

/-- C5 amended: importing the empty payload succeeds on both backends; the
Ledger Store afterwards is empty on the local backend, while on the remote
backend no upsert is attempted at all and the store equals the normalized
pre-import server state. -/
theorem c5_import_empty_payload (server : AppData) (e1 e2 e3 : Option String)
    (localData : Except String AppData) :
    App.importFlowLocal emptyAppData = .ok emptyAppData ∧
    (DataService.importDataRemote server e1 e2 e3 emptyAppData).1 = [] ∧
    (DataService.importDataRemote server e1 e2 e3 emptyAppData).2 = .ok server ∧
    App.importFlowRemote server emptyAppData localData =
      .ok (DataService.normalizeData server) := by
  refine ⟨rfl, ?_, ?_, ?_⟩
  · simp [DataService.importDataRemote, emptyAppData, DataService.importPaymentStep,
      DataService.importExpenseStep]
  · simp [DataService.importDataRemote, emptyAppData, DataService.importPaymentStep,
      DataService.importExpenseStep]
  · rfl

/-- C8: the Reports clients memo sorts data.clients in place, so on a ledger
whose clients are not already name-sorted the snapshot after the call differs
from the snapshot before it (here the two clients have swapped positions). -/
theorem c8_clients_memo_mutates :
    (Reports.clientsMemo exUnsortedData).2 ≠ exUnsortedData ∧
    (Reports.clientsMemo exUnsortedData).2.clients = [cAlpha, cBeta] := by
  constructor
  · decide
  · decide

/-- C9: updating a client or a payment whose id occurs nowhere in the
corresponding collection leaves the Ledger Store exactly unchanged, both at
the coordinator level (either persistence outcome) and in the local storage
branch of the adapter. -/
theorem c9_update_unknown_id_noop (data : AppData) (c : Client) (p : Payment) (ok : Bool)
    (hc : ∀ x ∈ data.clients, x.id ≠ c.id) (hp : ∀ y ∈ data.payments, y.id ≠ p.id) :
    App.updateClient ok data c = data ∧ App.updatePayment ok data p = data ∧
    DataService.updateClientLocal data c = data ∧
    DataService.updatePaymentLocal data p = data := by
  have hmc : data.clients.map (fun x => if x.id = c.id then c else x) = data.clients :=
    map_eq_self_of_mem _ _ (fun x hx => if_neg (hc x hx))
  have hmp : data.payments.map (fun y => if y.id = p.id then p else y) = data.payments :=
    map_eq_self_of_mem _ _ (fun y hy => if_neg (hp y hy))
  refine ⟨?_, ?_, ?_, ?_⟩
  · cases ok <;> simp [App.updateClient, hmc]
  · cases ok <;> simp [App.updatePayment, hmp]
  · simp [DataService.updateClientLocal, hmc]
  · simp [DataService.updatePaymentLocal, hmp]

/-- Witness for C9 at a concrete ledger and unknown ids. -/
theorem c9_witness :
    App.updateClient true exData exClientZ = exData ∧
    App.updatePayment true exData exPaymentZ = exData ∧
    DataService.updateClientLocal exData exClientZ = exData ∧
    DataService.updatePaymentLocal exData exPaymentZ = exData :=
  c9_update_unknown_id_noop exData exClientZ exPaymentZ true (by decide) (by decide)

/-- C10: clearData always issues all three deletes, payments then expenses
then clients, whatever the individual outcomes, and raises its single
combined error exactly when at least one delete failed; importData, in
contrast, stops at the first failing upsert (shown at a concrete payload
whose clients upsert fails: only that one call is attempted). -/
theorem c10_clear_attempts_all_deletes :
    (∀ e1 e2 e3 : Option String,
      (DataService.clearDataRemote e1 e2 e3).1 =
        [DataService.AdapterCall.deletePayments, DataService.AdapterCall.deleteExpenses,
          DataService.AdapterCall.deleteClients] ∧
      ((DataService.clearDataRemote e1 e2 e3).2 = .ok () ↔
        e1 = none ∧ e2 = none ∧ e3 = none)) ∧
    (DataService.importDataRemote exServerData (some "denied") none none exImportPayload).1 =
      [DataService.AdapterCall.upsertClients] ∧
    (DataService.importDataRemote exServerData (some "denied") none none exImportPayload).2 =
      .error "denied" := by
  refine ⟨fun e1 e2 e3 => ⟨rfl, ?_⟩, ?_, ?_⟩
  · cases e1 <;> cases e2 <;> cases e3 <;> simp [DataService.clearDataRemote]
  · rfl
  · rfl
